import Mathlib

/-!
Verification of the system-stats-backend server (Go, `main.go`) against its
natural-language specification.

Shallow embedding notes:
* Go `float64`/`float32` quantities (CPU percentages, memory percentages,
  megabyte conversions) are modelled over `ℚ`; every claim evaluates them only
  at values where the Go floating-point arithmetic is exact.
* Go errors are modelled as their message strings; `fmt.Errorf("p: %w", e)`
  becomes string concatenation `"p: " ++ e`.
* `uint64` network byte counters are `Nat`s; the Go expression
  `int64(a + b)` on `uint64` operands wraps the sum modulo `2^64` and then
  reinterprets it as a signed 64-bit value, which is modelled explicitly.
* The gopsutil calls (`cpu.Percent`, `mem.VirtualMemory`, `disk.Usage`,
  `net.IOCounters`, `process.Processes` and the per-process accessors) are the
  external `MetricsSource`; a `MetricsSource` value records the outcome of
  each call during one `getStats` invocation.
-/

deriving instance DecidableEq for Except

/-- Result of one `net.IOCounters` entry: the `BytesSent`/`BytesRecv`
counters (Go `uint64`, here `Nat`, intended below `2^64`). -/
structure NetCounter where
  bytesSent : Nat
  bytesRecv : Nat
deriving DecidableEq

/-- One handle from `process.Processes()`: the `Pid` field plus the three
fallible per-process reads `Name()`, `CPUPercent()`, `MemoryInfo()` (of which
the code uses only the `RSS` byte count). -/
structure ProcHandle where
  pid : Int
  nameRes : Except String String
  cpuPercentRes : Except String ℚ
  memoryRssRes : Except String Nat
deriving DecidableEq

/-- Outcomes of the five gopsutil calls made by one `getStats` invocation:
`cpu.Percent(0,false)`, `mem.VirtualMemory().UsedPercent`,
`disk.Usage("/").UsedPercent`, `net.IOCounters(false)`,
`process.Processes()`. -/
structure MetricsSource where
  cpuPercentRes : Except String (List ℚ)
  virtualMemoryRes : Except String ℚ
  diskUsageRes : Except String ℚ
  ioCountersRes : Except String (List NetCounter)
  processesRes : Except String (List ProcHandle)
deriving DecidableEq

/-- `ProcessInfo` struct of `main.go` (JSON tags: `pid`, `name`,
`cpuPercent`, `memoryUsage`). -/
structure ProcessInfo where
  pid : Int
  name : String
  cpuPercent : ℚ
  memoryUsage : ℚ
deriving DecidableEq

/-- `SystemStats` struct of `main.go` (JSON tags: `cpuUsage`, `memUsage`,
`diskUsage`, `netTraffic`, `processes`). -/
structure SystemStats where
  cpuUsage : ℚ
  memUsage : ℚ
  diskUsage : ℚ
  netTraffic : Int
  processes : List ProcessInfo
deriving DecidableEq

/-- Reinterpret a `uint64` value (a `Nat` below `2^64`) as Go's `int64`. -/
def int64OfUInt64 (n : Nat) : Int :=
  if n < 2 ^ 63 then (n : Int) else (n : Int) - 2 ^ 64

/-- Go `uint64` addition: wraps modulo `2^64`. -/
def uint64Add (a b : Nat) : Nat :=
  (a + b) % 2 ^ 64

/-- The per-process body of the loop in `getStats`: try `Name()`, then
`CPUPercent()`, then `MemoryInfo()`, in that order; on the first failure the
process is skipped (`continue`), otherwise a `ProcessInfo` is appended with
`MemoryUsage = float32(RSS) / (1024*1024)`. -/
def procInfoOfHandle (p : ProcHandle) : Option ProcessInfo :=
  match p.nameRes with
  | Except.error _ => none
  | Except.ok name =>
    match p.cpuPercentRes with
    | Except.error _ => none
    | Except.ok cpuPercent =>
      match p.memoryRssRes with
      | Except.error _ => none
      | Except.ok rss =>
        some { pid := p.pid, name := name, cpuPercent := cpuPercent,
               memoryUsage := (rss : ℚ) / (1024 * 1024) }

/-- Whether the loop keeps a process: all three fallible reads succeed. -/
def procOk (p : ProcHandle) : Bool :=
  p.nameRes.isOk && p.cpuPercentRes.isOk && p.memoryRssRes.isOk

/-- `getStats` of `main.go`: query the five gopsutil facilities in order,
fail fast on a core-metric error (wrapping the cause), on an empty CPU
percentage list, or on an empty network-counter list; enumerate processes
best-effort; assemble the `SystemStats` value. -/
def getStats (src : MetricsSource) : Except String SystemStats :=
  match src.cpuPercentRes with
  | Except.error e => Except.error ("error getting CPU stats: " ++ e)
  | Except.ok cpuPercentages =>
    match cpuPercentages with
    | [] => Except.error ("no CPU statistics available")
    | cpu0 :: _ =>
      match src.virtualMemoryRes with
      | Except.error e => Except.error ("error getting memory stats: " ++ e)
      | Except.ok memUsedPercent =>
        match src.diskUsageRes with
        | Except.error e => Except.error ("error getting disk stats: " ++ e)
        | Except.ok diskUsedPercent =>
          match src.ioCountersRes with
          | Except.error e => Except.error ("error getting network stats: " ++ e)
          | Except.ok netStats =>
            match netStats with
            | [] => Except.error ("no network statistics available")
            | net0 :: _ =>
              match src.processesRes with
              | Except.error e => Except.error ("error getting process list: " ++ e)
              | Except.ok procs =>
                Except.ok
                  { cpuUsage := cpu0
                    memUsage := memUsedPercent
                    diskUsage := diskUsedPercent
                    netTraffic := int64OfUInt64 (uint64Add net0.bytesRecv net0.bytesSent)
                    processes := procs.filterMap procInfoOfHandle }

/-- A response body: either the JSON serialization of a `SystemStats` value
(written by `json.NewEncoder(w).Encode`) or plain text (written by
`http.Error`, which appends a newline to the message). -/
inductive Body where
  | jsonStats (stats : SystemStats)
  | text (s : String)
deriving DecidableEq

/-- Status code and body of one HTTP response. -/
structure HttpResponse where
  status : Nat
  body : Body
deriving DecidableEq

/-- `statsHandler` of `main.go`: reject non-GET with 405
(`http.Error(w, "Method not allowed", 405)`), call `getStats`, answer 500
with the error text on failure (`http.Error(w, err.Error(), 500)`) and 200
with the encoded stats on success. -/
def statsHandler (method : String) (src : MetricsSource) : HttpResponse :=
  if method ≠ "GET" then
    { status := 405, body := Body.text ("Method not allowed" ++ "\n") }
  else
    match getStats src with
    | Except.error e => { status := 500, body := Body.text (e ++ "\n") }
    | Except.ok stats => { status := 200, body := Body.jsonStats stats }

/-- One observable action of the SSE loop on its response writer: a raw
write, a `Flusher.Flush`, or the deferred `ticker.Stop()` that runs when the
handler returns. -/
inductive OutAction where
  | write (s : String)
  | flush
  | stopTicker
deriving DecidableEq

/-- One iteration of the `select` in `sseHandler`, as chosen by the
scheduler: the context-done channel fired (`cancel`), the ticker fired
(`tick`, carrying the metrics outcomes of that tick's `getStats`), or both
channels were ready simultaneously and Go's `select` picked one of the two
uniformly at random (`both`; `pickedCancel = true` means the done branch was
chosen). -/
inductive Step where
  | cancel
  | tick (src : MetricsSource)
  | both (src : MetricsSource) (pickedCancel : Bool)
deriving DecidableEq

/-- Whether a step makes the handler return (exits the loop). -/
def Step.exits : Step → Bool
  | Step.cancel => true
  | Step.both _ true => true
  | _ => false

/-- The writes and flush performed on one ticker tick, given the serializer
`enc` used for `encoder.Encode(stats)` (which writes the JSON text followed
by a newline): on `getStats` failure one `fmt.Fprintf` of the
`event: error` frame and a flush; on success the `event: stats` prefix, the
encoded payload, the blank-line terminator, and a flush. -/
def tickActions (enc : SystemStats → String) (src : MetricsSource) : List OutAction :=
  match getStats src with
  | Except.error e =>
      [OutAction.write ("event: error\ndata: " ++ e ++ "\n\n"), OutAction.flush]
  | Except.ok stats =>
      [OutAction.write ("event: stats\ndata: "), OutAction.write (enc stats),
       OutAction.write ("\n\n"), OutAction.flush]

/-- The `for`/`select` loop of `sseHandler` run against a finite schedule of
steps: a `cancel` (or a `both` step won by the done branch) returns from the
handler, firing the deferred `ticker.Stop()`; a tick (or a `both` step won
by the ticker branch) performs that tick's actions and loops. An exhausted
schedule means the session is still open (the loop itself never ends). -/
def sseLoop (enc : SystemStats → String) : List Step → List OutAction
  | [] => []
  | Step.cancel :: _ => [OutAction.stopTicker]
  | Step.both _ true :: _ => [OutAction.stopTicker]
  | Step.both src false :: rest => tickActions enc src ++ sseLoop enc rest
  | Step.tick src :: rest => tickActions enc src ++ sseLoop enc rest

/-- The four response headers set unconditionally at the top of
`sseHandler`. -/
def sseHeaders : List (String × String) :=
  [("Content-Type", "text/event-stream"), ("Cache-Control", "no-cache"),
   ("Connection", "keep-alive"), ("Access-Control-Allow-Origin", "*")]

/-- `sseHandler` of `main.go`: it never inspects the request method (the
parameter is ignored, faithfully to the source, which has no method check),
sets the four SSE headers and runs the stream loop. -/
def sseHandler (method : String) (enc : SystemStats → String)
    (steps : List Step) : List (String × String) × List OutAction :=
  (sseHeaders, sseLoop enc steps)

/-- `defaultPort` constant of `main.go`. -/
def defaultPort : String := "3000"

/-- The `Server` struct, reduced to the field the port claims are about. -/
structure Server where
  port : String
deriving DecidableEq

/-- `NewServer` of `main.go`: empty port string selects `defaultPort`. -/
def NewServer (port : String) : Server :=
  { port := if port = "" then defaultPort else port }

/-- The listen address `":" + s.port` used by `Server.Start`. -/
def listenAddr (s : Server) : String := ":" ++ s.port

/-- `main` builds the server from `os.Getenv("PORT")` (which yields `""`
when the variable is absent); this is the port it then listens on. -/
def mainListenPort (envPORT : String) : String :=
  (NewServer envPORT).port

theorem getStats_cpu_error (src : MetricsSource) (e : String)
    (hc : src.cpuPercentRes = Except.error e) :
    getStats src = Except.error ("error getting CPU stats: " ++ e) := by
  unfold getStats
  rw [hc]

theorem getStats_cpu_empty (src : MetricsSource)
    (hc : src.cpuPercentRes = Except.ok []) :
    getStats src = Except.error ("no CPU statistics available") := by
  unfold getStats
  rw [hc]

theorem getStats_mem_error (src : MetricsSource) (c0 : ℚ) (cs : List ℚ) (e : String)
    (hc : src.cpuPercentRes = Except.ok (c0 :: cs))
    (hm : src.virtualMemoryRes = Except.error e) :
    getStats src = Except.error ("error getting memory stats: " ++ e) := by
  unfold getStats
  rw [hc, hm]

theorem getStats_disk_error (src : MetricsSource) (c0 : ℚ) (cs : List ℚ) (mv : ℚ)
    (e : String)
    (hc : src.cpuPercentRes = Except.ok (c0 :: cs))
    (hm : src.virtualMemoryRes = Except.ok mv)
    (hd : src.diskUsageRes = Except.error e) :
    getStats src = Except.error ("error getting disk stats: " ++ e) := by
  unfold getStats
  rw [hc, hm, hd]

theorem getStats_net_error (src : MetricsSource) (c0 : ℚ) (cs : List ℚ) (mv dv : ℚ)
    (e : String)
    (hc : src.cpuPercentRes = Except.ok (c0 :: cs))
    (hm : src.virtualMemoryRes = Except.ok mv)
    (hd : src.diskUsageRes = Except.ok dv)
    (hn : src.ioCountersRes = Except.error e) :
    getStats src = Except.error ("error getting network stats: " ++ e) := by
  unfold getStats
  rw [hc, hm, hd, hn]

theorem getStats_net_empty (src : MetricsSource) (c0 : ℚ) (cs : List ℚ) (mv dv : ℚ)
    (hc : src.cpuPercentRes = Except.ok (c0 :: cs))
    (hm : src.virtualMemoryRes = Except.ok mv)
    (hd : src.diskUsageRes = Except.ok dv)
    (hn : src.ioCountersRes = Except.ok []) :
    getStats src = Except.error ("no network statistics available") := by
  unfold getStats
  rw [hc, hm, hd, hn]

theorem getStats_ok_eq (src : MetricsSource) (c0 : ℚ) (cs : List ℚ) (mv dv : ℚ)
    (n0 : NetCounter) (ns : List NetCounter) (procs : List ProcHandle)
    (hc : src.cpuPercentRes = Except.ok (c0 :: cs))
    (hm : src.virtualMemoryRes = Except.ok mv)
    (hd : src.diskUsageRes = Except.ok dv)
    (hn : src.ioCountersRes = Except.ok (n0 :: ns))
    (hp : src.processesRes = Except.ok procs) :
    getStats src = Except.ok
      { cpuUsage := c0, memUsage := mv, diskUsage := dv,
        netTraffic := int64OfUInt64 (uint64Add n0.bytesRecv n0.bytesSent),
        processes := procs.filterMap procInfoOfHandle } := by
  unfold getStats
  rw [hc, hm, hd, hn, hp]

/-- Inversion: a successful `getStats` means every core read succeeded, the
CPU and network sequences were nonempty, and the result is the assembled
record. -/
theorem getStats_ok_inv (src : MetricsSource) (stats : SystemStats)
    (h : getStats src = Except.ok stats) :
    ∃ c0 cs mv dv n0 ns procs,
      src.cpuPercentRes = Except.ok (c0 :: cs) ∧
      src.virtualMemoryRes = Except.ok mv ∧
      src.diskUsageRes = Except.ok dv ∧
      src.ioCountersRes = Except.ok (n0 :: ns) ∧
      src.processesRes = Except.ok procs ∧
      stats = { cpuUsage := c0, memUsage := mv, diskUsage := dv,
                netTraffic := int64OfUInt64 (uint64Add n0.bytesRecv n0.bytesSent),
                processes := procs.filterMap procInfoOfHandle } := by
  obtain ⟨cpuR, memR, diskR, ioR, prR⟩ := src
  rcases cpuR with ec | cl
  · simp [getStats] at h
  rcases cl with _ | ⟨c0, cs⟩
  · simp [getStats] at h
  rcases memR with em | mv
  · simp [getStats] at h
  rcases diskR with ed | dv
  · simp [getStats] at h
  rcases ioR with en | nl
  · simp [getStats] at h
  rcases nl with _ | ⟨n0, ns⟩
  · simp [getStats] at h
  rcases prR with ep | procs
  · simp [getStats] at h
  exact ⟨c0, cs, mv, dv, n0, ns, procs, rfl, rfl, rfl, rfl, rfl,
    (Except.ok.inj h).symm⟩

/-- C1: In every execution of `getStats`, a failing CPU, memory, disk or
network-counter read, or an empty CPU read, makes the whole operation return
an error wrapping the underlying cause (the first failure in query order),
and no `SystemStats` value at all is returned. -/
theorem getStats_core_failFast (src : MetricsSource)
    (h : src.cpuPercentRes.isOk = false ∨ src.cpuPercentRes = Except.ok [] ∨
         src.virtualMemoryRes.isOk = false ∨ src.diskUsageRes.isOk = false ∨
         src.ioCountersRes.isOk = false) :
    (∃ m, getStats src = Except.error m) ∧
    (∀ stats, getStats src ≠ Except.ok stats) ∧
    (∀ e, src.cpuPercentRes = Except.error e →
      getStats src = Except.error ("error getting CPU stats: " ++ e)) ∧
    (src.cpuPercentRes = Except.ok [] →
      getStats src = Except.error ("no CPU statistics available")) ∧
    (∀ c0 cs e, src.cpuPercentRes = Except.ok (c0 :: cs) →
      src.virtualMemoryRes = Except.error e →
      getStats src = Except.error ("error getting memory stats: " ++ e)) ∧
    (∀ c0 cs mv e, src.cpuPercentRes = Except.ok (c0 :: cs) →
      src.virtualMemoryRes = Except.ok mv →
      src.diskUsageRes = Except.error e →
      getStats src = Except.error ("error getting disk stats: " ++ e)) ∧
    (∀ c0 cs mv dv e, src.cpuPercentRes = Except.ok (c0 :: cs) →
      src.virtualMemoryRes = Except.ok mv →
      src.diskUsageRes = Except.ok dv →
      src.ioCountersRes = Except.error e →
      getStats src = Except.error ("error getting network stats: " ++ e)) := by
  have noOk : ∃ m, getStats src = Except.error m := by
    rcases h with h | h | h | h | h
    · rcases hc : src.cpuPercentRes with ec | cl
      · exact ⟨_, getStats_cpu_error src ec hc⟩
      · rw [hc] at h; simp [Except.isOk, Except.toBool] at h
    · exact ⟨_, getStats_cpu_empty src h⟩
    all_goals rcases hc : src.cpuPercentRes with ec | cl
    · exact ⟨_, getStats_cpu_error src ec hc⟩
    case _ =>
      rcases cl with _ | ⟨c0, cs⟩
      · exact ⟨_, getStats_cpu_empty src hc⟩
      · rcases hm : src.virtualMemoryRes with em | mv
        · exact ⟨_, getStats_mem_error src c0 cs em hc hm⟩
        · rw [hm] at h; simp [Except.isOk, Except.toBool] at h
    · exact ⟨_, getStats_cpu_error src ec hc⟩
    case _ =>
      rcases cl with _ | ⟨c0, cs⟩
      · exact ⟨_, getStats_cpu_empty src hc⟩
      · rcases hm : src.virtualMemoryRes with em | mv
        · exact ⟨_, getStats_mem_error src c0 cs em hc hm⟩
        · rcases hd : src.diskUsageRes with ed | dv
          · exact ⟨_, getStats_disk_error src c0 cs mv ed hc hm hd⟩
          · rw [hd] at h; simp [Except.isOk, Except.toBool] at h
    · exact ⟨_, getStats_cpu_error src ec hc⟩
    case _ =>
      rcases cl with _ | ⟨c0, cs⟩
      · exact ⟨_, getStats_cpu_empty src hc⟩
      · rcases hm : src.virtualMemoryRes with em | mv
        · exact ⟨_, getStats_mem_error src c0 cs em hc hm⟩
        · rcases hd : src.diskUsageRes with ed | dv
          · exact ⟨_, getStats_disk_error src c0 cs mv ed hc hm hd⟩
          · rcases hn : src.ioCountersRes with en | nl
            · exact ⟨_, getStats_net_error src c0 cs mv dv en hc hm hd hn⟩
            · rw [hn] at h; simp [Except.isOk, Except.toBool] at h
  refine ⟨noOk, ?_, ?_, ?_, ?_, ?_, ?_⟩
  · intro stats hok
    obtain ⟨m, hm⟩ := noOk
    rw [hok] at hm
    exact Except.noConfusion hm
  · intro e hc; exact getStats_cpu_error src e hc
  · intro hc; exact getStats_cpu_empty src hc
  · intro c0 cs e hc hm; exact getStats_mem_error src c0 cs e hc hm
  · intro c0 cs mv e hc hm hd; exact getStats_disk_error src c0 cs mv e hc hm hd
  · intro c0 cs mv dv e hc hm hd hn; exact getStats_net_error src c0 cs mv dv e hc hm hd hn

/-- A source whose CPU read fails and whose other reads succeed. -/
def srcCpuFail : MetricsSource :=
  { cpuPercentRes := Except.error ("cpu boom"), virtualMemoryRes := Except.ok 1,
    diskUsageRes := Except.ok 2,
    ioCountersRes := Except.ok [{ bytesSent := 3, bytesRecv := 4 }],
    processesRes := Except.ok [] }

/-- Witness for C1 at `srcCpuFail`. -/
theorem getStats_core_failFast_witness :
    getStats srcCpuFail = Except.error ("error getting CPU stats: cpu boom") :=
  (getStats_core_failFast srcCpuFail (Or.inl (by decide))).2.2.1 "cpu boom" rfl

/-- The `ProcessInfo` built from a handle whose three reads all succeeded. -/
def procExtract (p : ProcHandle) : ProcessInfo :=
  { pid := p.pid,
    name := p.nameRes.toOption.getD "",
    cpuPercent := p.cpuPercentRes.toOption.getD 0,
    memoryUsage := ((p.memoryRssRes.toOption.getD 0 : Nat) : ℚ) / (1024 * 1024) }

theorem procInfoOfHandle_eq (p : ProcHandle) :
    procInfoOfHandle p = if procOk p then some (procExtract p) else none := by
  obtain ⟨pid, nr, cr, mr⟩ := p
  rcases nr with en | n <;> rcases cr with ec | c <;> rcases mr with em | m <;>
    simp [procInfoOfHandle, procOk, procExtract, Except.isOk, Except.toBool,
      Except.toOption]

theorem filterMap_procInfoOfHandle (l : List ProcHandle) :
    l.filterMap procInfoOfHandle = (l.filter procOk).map procExtract := by
  induction l with
  | nil => rfl
  | cons p t ih =>
    by_cases hp : procOk p
    · simp [List.filterMap_cons, List.filter_cons, hp, procInfoOfHandle_eq, ih]
    · simp [List.filterMap_cons, List.filter_cons, hp, procInfoOfHandle_eq, ih]

theorem length_filter_procOk_add (l : List ProcHandle) :
    (l.filter procOk).length + (l.filter (fun p => !(procOk p))).length
      = l.length := by
  induction l with
  | nil => rfl
  | cons p t ih =>
    by_cases hp : procOk p <;>
      simp [List.filter_cons, hp, ← ih] <;> omega

/-- C2: a successful `getStats` over a process list keeps exactly the
processes whose name, CPU-percent and memory reads (tried in that order) all
succeed, in their enumeration order, with all four fields resolved; the
count is N − M where M is the number of processes with a failing field. -/
theorem getStats_process_policy (src : MetricsSource) (stats : SystemStats)
    (procs : List ProcHandle)
    (hp : src.processesRes = Except.ok procs)
    (hs : getStats src = Except.ok stats) :
    stats.processes = (procs.filter procOk).map procExtract ∧
    stats.processes.length =
      procs.length - (procs.filter (fun p => !(procOk p))).length ∧
    ∀ info ∈ stats.processes, ∃ p ∈ procs, procOk p = true ∧
      info.pid = p.pid ∧
      p.nameRes = Except.ok info.name ∧
      p.cpuPercentRes = Except.ok info.cpuPercent ∧
      ∃ rss, p.memoryRssRes = Except.ok rss ∧
        info.memoryUsage = (rss : ℚ) / (1024 * 1024) := by
  obtain ⟨c0, cs, mv, dv, n0, ns, procs2, _, _, _, _, hp2, hstats⟩ :=
    getStats_ok_inv src stats hs
  have hpp : procs = procs2 := by
    rw [hp] at hp2
    exact Except.ok.inj hp2
  subst hpp
  have hproc : stats.processes = (procs.filter procOk).map procExtract := by
    rw [hstats]
    exact filterMap_procInfoOfHandle procs
  refine ⟨hproc, ?_, ?_⟩
  · rw [hproc, List.length_map]
    have := length_filter_procOk_add procs
    omega
  · intro info hinfo
    rw [hproc] at hinfo
    obtain ⟨p, hpf, hpe⟩ := List.mem_map.mp hinfo
    have hmem : p ∈ procs := List.mem_of_mem_filter hpf
    have hok : procOk p = true := List.of_mem_filter hpf
    have hn : p.nameRes.isOk := by
      have := hok
      unfold procOk at this
      exact (Bool.and_eq_true _ _ |>.mp ((Bool.and_eq_true _ _ |>.mp this).1)).1
    have hc : p.cpuPercentRes.isOk := by
      have := hok
      unfold procOk at this
      exact (Bool.and_eq_true _ _ |>.mp ((Bool.and_eq_true _ _ |>.mp this).1)).2
    have hm : p.memoryRssRes.isOk := by
      have := hok
      unfold procOk at this
      exact (Bool.and_eq_true _ _ |>.mp this).2
    rcases hnr : p.nameRes with en | n
    · rw [hnr] at hn; simp [Except.isOk, Except.toBool] at hn
    rcases hcr : p.cpuPercentRes with ec | c
    · rw [hcr] at hc; simp [Except.isOk, Except.toBool] at hc
    rcases hmr : p.memoryRssRes with em | m
    · rw [hmr] at hm; simp [Except.isOk, Except.toBool] at hm
    refine ⟨p, hmem, hok, ?_, ?_, ?_, m, hmr, ?_⟩ <;>
      rw [← hpe] <;>
      simp [procExtract, hnr, hcr, hmr, Except.toOption]

/-- A process handle whose reads all succeed (pid 1). -/
def procA : ProcHandle :=
  { pid := 1, nameRes := Except.ok ("a"), cpuPercentRes := Except.ok 5,
    memoryRssRes := Except.ok 1048576 }

/-- A process handle whose CPU-percent read fails (pid 2). -/
def procB : ProcHandle :=
  { pid := 2, nameRes := Except.ok ("b"),
    cpuPercentRes := Except.error ("denied"),
    memoryRssRes := Except.ok 2097152 }

/-- A process handle whose reads all succeed (pid 3). -/
def procC : ProcHandle :=
  { pid := 3, nameRes := Except.ok ("c"), cpuPercentRes := Except.ok 7,
    memoryRssRes := Except.ok 3145728 }

/-- A fully successful source with three processes of which one fails. -/
def srcProcMix : MetricsSource :=
  { cpuPercentRes := Except.ok [10], virtualMemoryRes := Except.ok 20,
    diskUsageRes := Except.ok 30,
    ioCountersRes := Except.ok [{ bytesSent := 1, bytesRecv := 2 }],
    processesRes := Except.ok [procA, procB, procC] }

/-- The snapshot `getStats` produces for `srcProcMix`. -/
def statsProcMix : SystemStats :=
  { cpuUsage := 10, memUsage := 20, diskUsage := 30, netTraffic := 3,
    processes := [{ pid := 1, name := "a", cpuPercent := 5, memoryUsage := 1 },
                  { pid := 3, name := "c", cpuPercent := 7, memoryUsage := 3 }] }

theorem getStats_srcProcMix : getStats srcProcMix = Except.ok statsProcMix := by
  rw [getStats_ok_eq srcProcMix 10 [] 20 30 ⟨1, 2⟩ [] [procA, procB, procC]
    rfl rfl rfl rfl rfl]
  unfold statsProcMix
  norm_num [int64OfUInt64, uint64Add, List.filterMap_cons, procInfoOfHandle,
    procA, procB, procC]

/-- Witness for C2: three enumerated processes, one field failure, so the
snapshot keeps exactly the two surviving processes in order. -/
theorem getStats_process_policy_witness :
    statsProcMix.processes =
      (([procA, procB, procC]).filter procOk).map procExtract ∧
    statsProcMix.processes.length =
      [procA, procB, procC].length -
        ([procA, procB, procC].filter (fun p => !(procOk p))).length :=
  ⟨(getStats_process_policy srcProcMix statsProcMix [procA, procB, procC]
      rfl getStats_srcProcMix).1,
   (getStats_process_policy srcProcMix statsProcMix [procA, procB, procC]
      rfl getStats_srcProcMix).2.1⟩

/-- C3 (amended): on success `netTraffic` is the signed-64-bit
reinterpretation of `(bytesRecv + bytesSent) mod 2^64` of the first
network-counter entry — equal to the plain sum `bytesSent + bytesRecv`
whenever that sum is below `2^63` — and an empty counter sequence never
yields a snapshot. -/
theorem getStats_netTraffic (src : MetricsSource) :
    (∀ n0 ns stats, src.ioCountersRes = Except.ok (n0 :: ns) →
      getStats src = Except.ok stats →
      stats.netTraffic = int64OfUInt64 ((n0.bytesRecv + n0.bytesSent) % 2 ^ 64) ∧
      (n0.bytesRecv + n0.bytesSent < 2 ^ 63 →
        stats.netTraffic = (n0.bytesSent : Int) + (n0.bytesRecv : Int))) ∧
    (src.ioCountersRes = Except.ok [] → ∃ m, getStats src = Except.error m) := by
  constructor
  · intro n0 ns stats hio hok
    obtain ⟨c0, cs, mv, dv, n02, ns2, procs, hc, hm, hd, hn, hp, hstats⟩ :=
      getStats_ok_inv src stats hok
    rw [hio] at hn
    obtain ⟨h1, h2⟩ := List.cons.inj (Except.ok.inj hn)
    subst h1
    have hlt : (n0.bytesRecv + n0.bytesSent) % 2 ^ 64 < 2 ^ 64 :=
      Nat.mod_lt _ (by norm_num)
    constructor
    · rw [hstats]
      rfl
    · intro hsmall
      rw [hstats]
      show int64OfUInt64 (uint64Add n0.bytesRecv n0.bytesSent) = _
      have hmod : uint64Add n0.bytesRecv n0.bytesSent =
          n0.bytesRecv + n0.bytesSent := by
        unfold uint64Add
        exact Nat.mod_eq_of_lt (lt_trans hsmall (by norm_num))
      rw [hmod]
      unfold int64OfUInt64
      rw [if_pos hsmall]
      push_cast
      ring
  · intro hio
    rcases hc : src.cpuPercentRes with ec | cl
    · exact ⟨_, getStats_cpu_error src ec hc⟩
    rcases cl with _ | ⟨c0, cs⟩
    · exact ⟨_, getStats_cpu_empty src hc⟩
    rcases hm : src.virtualMemoryRes with em | mv
    · exact ⟨_, getStats_mem_error src c0 cs em hc hm⟩
    rcases hd : src.diskUsageRes with ed | dv
    · exact ⟨_, getStats_disk_error src c0 cs mv ed hc hm hd⟩
    · exact ⟨_, getStats_net_empty src c0 cs mv dv hc hm hd hio⟩

/-- Witness for C3 (amended) at `srcProcMix`. -/
theorem getStats_netTraffic_witness :
    statsProcMix.netTraffic = int64OfUInt64 ((2 + 1) % 2 ^ 64) ∧
    statsProcMix.netTraffic = ((1 : Int) + (2 : Int)) := by
  have h := (getStats_netTraffic srcProcMix).1 ⟨1, 2⟩ [] statsProcMix rfl
    getStats_srcProcMix
  exact ⟨h.1, h.2 (by norm_num)⟩

/-- A source whose first network counters sum to `2^64`, overflowing. -/
def srcOverflow : MetricsSource :=
  { cpuPercentRes := Except.ok [1], virtualMemoryRes := Except.ok 2,
    diskUsageRes := Except.ok 3,
    ioCountersRes := Except.ok [{ bytesSent := 2 ^ 63, bytesRecv := 2 ^ 63 }],
    processesRes := Except.ok [] }

/-- C3 counterexample: at `srcOverflow` the snapshot succeeds with
`netTraffic = 0`, while `bytesSent + bytesRecv = 2^63 + 2^63 ≠ 0`: the
claimed equality with the plain sum fails, because the code computes the sum
with wrapping `uint64` addition and reinterprets it as `int64`. -/
theorem getStats_netTraffic_counterexample :
    getStats srcOverflow =
      Except.ok { cpuUsage := 1, memUsage := 2, diskUsage := 3,
                  netTraffic := 0, processes := [] } ∧
    (((2 : Int) ^ 63 + 2 ^ 63 ≠ 0)) := by
  constructor
  · rw [getStats_ok_eq srcOverflow 1 [] 2 3 ⟨2 ^ 63, 2 ^ 63⟩ [] []
      rfl rfl rfl rfl rfl]
    norm_num [int64OfUInt64, uint64Add]
  · norm_num

/-- C4: a tick whose `getStats` fails emits exactly the
`event: error` frame carrying the error text, followed by a flush, and the
session continues; a subsequent successful tick still emits its
`event: stats` frame. -/
theorem sse_error_event_continues (enc : SystemStats → String)
    (src : MetricsSource) (e : String) (rest : List Step)
    (h : getStats src = Except.error e) :
    sseLoop enc (Step.tick src :: rest) =
      OutAction.write ("event: error\ndata: " ++ e ++ "\n\n") ::
        OutAction.flush :: sseLoop enc rest ∧
    (∀ src2 stats2, getStats src2 = Except.ok stats2 →
      sseLoop enc (Step.tick src :: Step.tick src2 :: rest) =
        OutAction.write ("event: error\ndata: " ++ e ++ "\n\n") ::
        OutAction.flush ::
        OutAction.write ("event: stats\ndata: ") ::
        OutAction.write (enc stats2) ::
        OutAction.write ("\n\n") ::
        OutAction.flush :: sseLoop enc rest) := by
  have hta : tickActions enc src =
      [OutAction.write ("event: error\ndata: " ++ e ++ "\n\n"),
       OutAction.flush] := by
    unfold tickActions
    rw [h]
  constructor
  · show tickActions enc src ++ sseLoop enc rest = _
    rw [hta]
    rfl
  · intro src2 stats2 h2
    have hta2 : tickActions enc src2 =
        [OutAction.write ("event: stats\ndata: "), OutAction.write (enc stats2),
         OutAction.write ("\n\n"), OutAction.flush] := by
      unfold tickActions
      rw [h2]
    show tickActions enc src ++ (tickActions enc src2 ++ sseLoop enc rest) = _
    rw [hta, hta2]
    rfl

/-- Witness for C4: a failed tick followed by a successful tick. -/
theorem sse_error_event_continues_witness :
    sseLoop (fun _ => "") [Step.tick srcCpuFail, Step.tick srcProcMix] =
      [OutAction.write ("event: error\ndata: " ++
         ("error getting CPU stats: " ++ "cpu boom") ++ "\n\n"),
       OutAction.flush,
       OutAction.write ("event: stats\ndata: "), OutAction.write (""),
       OutAction.write ("\n\n"), OutAction.flush] := by
  have h := (sse_error_event_continues (fun _ => "") srcCpuFail
      ("error getting CPU stats: " ++ "cpu boom") []
      (getStats_cpu_error srcCpuFail ("cpu boom") rfl)).2
      srcProcMix statsProcMix getStats_srcProcMix
  simpa using h

theorem stopTicker_not_mem_tickActions (enc : SystemStats → String)
    (src : MetricsSource) :
    OutAction.stopTicker ∉ tickActions enc src := by
  unfold tickActions
  split <;> simp

theorem sseLoop_append_no_exit (enc : SystemStats → String)
    (pre rest : List Step) (h : ∀ s ∈ pre, s.exits = false) :
    sseLoop enc (pre ++ rest) = sseLoop enc pre ++ sseLoop enc rest := by
  induction pre with
  | nil => rfl
  | cons s t ih =>
    have hs : s.exits = false := h s (List.mem_cons_self s t)
    have ht : ∀ x ∈ t, x.exits = false :=
      fun x hx => h x (List.mem_cons_of_mem s hx)
    cases s with
    | cancel => simp [Step.exits] at hs
    | tick src2 =>
      show tickActions enc src2 ++ sseLoop enc (t ++ rest) = _
      rw [ih ht]
      simp [sseLoop]
    | both src2 b =>
      cases b with
      | true => simp [Step.exits] at hs
      | false =>
        show tickActions enc src2 ++ sseLoop enc (t ++ rest) = _
        rw [ih ht]
        simp [sseLoop]

theorem stopTicker_not_mem_no_exit (enc : SystemStats → String)
    (pre : List Step) (h : ∀ s ∈ pre, s.exits = false) :
    OutAction.stopTicker ∉ sseLoop enc pre := by
  induction pre with
  | nil => simp [sseLoop]
  | cons s t ih =>
    have hs : s.exits = false := h s (List.mem_cons_self s t)
    have ht : ∀ x ∈ t, x.exits = false :=
      fun x hx => h x (List.mem_cons_of_mem s hx)
    cases s with
    | cancel => simp [Step.exits] at hs
    | tick src2 =>
      show OutAction.stopTicker ∉ tickActions enc src2 ++ sseLoop enc t
      intro hmem
      rcases List.mem_append.mp hmem with hmem | hmem
      · exact stopTicker_not_mem_tickActions enc src2 hmem
      · exact ih ht hmem
    | both src2 b =>
      cases b with
      | true => simp [Step.exits] at hs
      | false =>
        show OutAction.stopTicker ∉ tickActions enc src2 ++ sseLoop enc t
        intro hmem
        rcases List.mem_append.mp hmem with hmem | hmem
        · exact stopTicker_not_mem_tickActions enc src2 hmem
        · exact ih ht hmem

theorem stopTicker_mem_of_exit (enc : SystemStats → String)
    (steps : List Step) (h : ∃ s ∈ steps, s.exits = true) :
    OutAction.stopTicker ∈ sseLoop enc steps := by
  induction steps with
  | nil => simp at h
  | cons s t ih =>
    cases s with
    | cancel => simp [sseLoop]
    | tick src2 =>
      have hrest : ∃ x ∈ t, x.exits = true := by
        obtain ⟨x, hx, hex⟩ := h
        rcases List.mem_cons.mp hx with rfl | hx2
        · simp [Step.exits] at hex
        · exact ⟨x, hx2, hex⟩
      show OutAction.stopTicker ∈ tickActions enc src2 ++ sseLoop enc t
      exact List.mem_append.mpr (Or.inr (ih hrest))
    | both src2 b =>
      cases b with
      | true => simp [sseLoop]
      | false =>
        have hrest : ∃ x ∈ t, x.exits = true := by
          obtain ⟨x, hx, hex⟩ := h
          rcases List.mem_cons.mp hx with rfl | hx2
          · simp [Step.exits] at hex
          · exact ⟨x, hx2, hex⟩
        show OutAction.stopTicker ∈ tickActions enc src2 ++ sseLoop enc t
        exact List.mem_append.mpr (Or.inr (ih hrest))

/-- C5: once the cancellation signal is observed the session performs no
further action except releasing its timer (the deferred `ticker.Stop()`
fires on the only exit path); no event of the schedule after the
cancellation is emitted, the pre-cancellation output never contains a timer
release, and every exiting run does release the timer. -/
theorem sse_cancel_terminal (enc : SystemStats → String) (pre post : List Step)
    (h : ∀ s ∈ pre, s.exits = false) :
    sseLoop enc (pre ++ Step.cancel :: post) =
      sseLoop enc pre ++ [OutAction.stopTicker] ∧
    OutAction.stopTicker ∉ sseLoop enc pre ∧
    (∀ steps : List Step, (∃ s ∈ steps, s.exits = true) →
      OutAction.stopTicker ∈ sseLoop enc steps) := by
  refine ⟨?_, stopTicker_not_mem_no_exit enc pre h, stopTicker_mem_of_exit enc⟩
  rw [sseLoop_append_no_exit enc pre (Step.cancel :: post) h]
  rfl

/-- Witness for C5: a tick, then cancellation, then a schedule that is never
reached. -/
theorem sse_cancel_terminal_witness :
    sseLoop (fun _ => "") ([Step.tick srcProcMix] ++
        Step.cancel :: [Step.tick srcProcMix]) =
      sseLoop (fun _ => "") [Step.tick srcProcMix] ++ [OutAction.stopTicker] :=
  (sse_cancel_terminal (fun _ => "") [Step.tick srcProcMix]
    [Step.tick srcProcMix] (by decide)).1

/-- The single process of the C6 snapshot scenario. -/
def procX : ProcHandle :=
  { pid := 10, nameRes := Except.ok ("x"), cpuPercentRes := Except.ok 1,
    memoryRssRes := Except.ok 2097152 }

/-- The C6 scenario source: every read succeeds. -/
def srcScenario : MetricsSource :=
  { cpuPercentRes := Except.ok [123 / 10], virtualMemoryRes := Except.ok 55,
    diskUsageRes := Except.ok 80,
    ioCountersRes := Except.ok [{ bytesSent := 100, bytesRecv := 200 }],
    processesRes := Except.ok [procX] }

/-- C6: `GET /api/stats` with CPU=12.3, mem=55, disk=80, net sent=100 and
recv=200, and one process (pid 10, name x, cpu 1.0, RSS 2097152 bytes)
answers 200 with exactly the expected snapshot; in particular
2097152 bytes / 1048576 = 2.0 MB. -/
theorem statsHandler_scenario :
    statsHandler ("GET") srcScenario =
      { status := 200,
        body := Body.jsonStats
          { cpuUsage := 123 / 10, memUsage := 55, diskUsage := 80,
            netTraffic := 300,
            processes := [{ pid := 10, name := "x", cpuPercent := 1,
                            memoryUsage := 2 }] } } := by
  have hg : getStats srcScenario =
      Except.ok
        { cpuUsage := 123 / 10, memUsage := 55, diskUsage := 80,
          netTraffic := 300,
          processes := [{ pid := 10, name := "x", cpuPercent := 1,
                          memoryUsage := 2 }] } := by
    rw [getStats_ok_eq srcScenario (123 / 10) [] 55 80 ⟨100, 200⟩ [] [procX]
      rfl rfl rfl rfl rfl]
    norm_num [int64OfUInt64, uint64Add, List.filterMap_cons, procInfoOfHandle,
      procX]
  simp [statsHandler, hg]

/-- C7 (amended): when the next tick and the cancellation signal are ready
simultaneously, the `select` race is nondeterministic: if the done branch
wins, the session exits with only the timer release; if the ticker branch
wins, that tick's event is still emitted and cancellation is honored only at
a later iteration. -/
theorem sse_both_pending (enc : SystemStats → String) (src : MetricsSource)
    (rest : List Step) :
    sseLoop enc (Step.both src true :: rest) = [OutAction.stopTicker] ∧
    sseLoop enc (Step.both src false :: rest) =
      tickActions enc src ++ sseLoop enc rest ∧
    sseLoop enc (Step.both src false :: Step.cancel :: rest) =
      tickActions enc src ++ [OutAction.stopTicker] :=
  ⟨rfl, rfl, rfl⟩

/-- C7 counterexample: both channels became ready together, the ticker
branch won the race (which Go's `select` chooses with positive probability),
and a further `stats` event was written before cancellation was honored —
so the session does not always honor a pending cancellation before the next
scheduled write. -/
theorem sse_both_pending_counterexample :
    sseLoop (fun _ => "") [Step.both srcProcMix false, Step.cancel] =
      [OutAction.write ("event: stats\ndata: "), OutAction.write (""),
       OutAction.write ("\n\n"), OutAction.flush, OutAction.stopTicker] ∧
    OutAction.write ("event: stats\ndata: ") ∈
      sseLoop (fun _ => "") [Step.both srcProcMix false, Step.cancel] := by
  have ht : tickActions (fun _ => "") srcProcMix =
      [OutAction.write ("event: stats\ndata: "), OutAction.write (""),
       OutAction.write ("\n\n"), OutAction.flush] := by
    unfold tickActions
    rw [getStats_srcProcMix]
  have h1 : sseLoop (fun _ => "") [Step.both srcProcMix false, Step.cancel] =
      [OutAction.write ("event: stats\ndata: "), OutAction.write (""),
       OutAction.write ("\n\n"), OutAction.flush, OutAction.stopTicker] := by
    show tickActions (fun _ => "") srcProcMix ++
        sseLoop (fun _ => "") [Step.cancel] = _
    rw [ht]
    rfl
  refine ⟨h1, ?_⟩
  rw [h1]
  simp

/-- C8: whenever `getStats` fails, `GET /api/stats` answers 500 with the
error's message (plus the newline `http.Error` appends) as plain-text body;
in particular a failing disk read (with CPU and memory fine) yields a 500
whose body contains the disk error's message. -/
theorem statsHandler_failure_500 (src : MetricsSource) :
    (∀ m, getStats src = Except.error m →
      statsHandler ("GET") src =
        { status := 500, body := Body.text (m ++ "\n") }) ∧
    (∀ c0 cs mv e, src.cpuPercentRes = Except.ok (c0 :: cs) →
      src.virtualMemoryRes = Except.ok mv →
      src.diskUsageRes = Except.error e →
      ∃ pre post, statsHandler ("GET") src =
        { status := 500, body := Body.text (pre ++ e ++ post) }) := by
  have hbase : ∀ m, getStats src = Except.error m →
      statsHandler ("GET") src =
        { status := 500, body := Body.text (m ++ "\n") } := by
    intro m hm
    simp [statsHandler, hm]
  refine ⟨hbase, ?_⟩
  intro c0 cs mv e hc hm hd
  exact ⟨"error getting disk stats: ", "\n",
    hbase _ (getStats_disk_error src c0 cs mv e hc hm hd)⟩

/-- A source whose disk read fails while CPU and memory succeed. -/
def srcDiskFail : MetricsSource :=
  { cpuPercentRes := Except.ok [1], virtualMemoryRes := Except.ok 2,
    diskUsageRes := Except.error ("disk boom"),
    ioCountersRes := Except.ok [{ bytesSent := 3, bytesRecv := 4 }],
    processesRes := Except.ok [] }

/-- Witness for C8 at `srcDiskFail`. -/
theorem statsHandler_failure_500_witness :
    statsHandler ("GET") srcDiskFail =
      { status := 500,
        body := Body.text (("error getting disk stats: " ++ "disk boom")
          ++ "\n") } ∧
    (∃ pre post, statsHandler ("GET") srcDiskFail =
      { status := 500, body := Body.text (pre ++ "disk boom" ++ post) }) :=
  ⟨(statsHandler_failure_500 srcDiskFail).1 _
      (getStats_disk_error srcDiskFail 1 [] 2 ("disk boom") rfl rfl rfl),
   (statsHandler_failure_500 srcDiskFail).2 1 [] 2 ("disk boom") rfl rfl rfl⟩

/-- C9: an absent (empty) PORT environment value makes the server use the
default port 3000; a non-empty value is used verbatim; the port is fixed by
`NewServer` at construction and `Start` listens on `":" ++ port`. -/
theorem newServer_port (port : String) :
    (NewServer ("")).port = defaultPort ∧
    defaultPort = "3000" ∧
    mainListenPort ("") = "3000" ∧
    (port ≠ "" → (NewServer port).port = port) ∧
    (port ≠ "" → mainListenPort port = port) ∧
    (∀ s : Server, listenAddr s = ":" ++ s.port) := by
  refine ⟨rfl, rfl, rfl, ?_, ?_, fun s => rfl⟩
  · intro hp
    unfold NewServer
    simp [hp]
  · intro hp
    unfold mainListenPort NewServer
    simp [hp]

/-- Witness for C9: configured port 8080 and absent port. -/
theorem newServer_port_witness :
    (NewServer ("8080")).port = "8080" ∧ mainListenPort ("") = "3000" :=
  ⟨(newServer_port ("8080")).2.2.2.1 (by decide),
   (newServer_port ("8080")).2.2.1⟩

/-- C10: the events endpoint performs no method check — every method gets
the very response stream GET gets — and its headers always include
`Access-Control-Allow-Origin: *` besides the event-stream, no-cache and
keep-alive headers; the stats endpoint, in contrast, rejects non-GET
methods with 405. -/
theorem sseHandler_no_method_check (method : String)
    (enc : SystemStats → String) (steps : List Step) (src : MetricsSource) :
    sseHandler method enc steps = sseHandler ("GET") enc steps ∧
    ("Access-Control-Allow-Origin", "*") ∈ (sseHandler method enc steps).1 ∧
    ("Content-Type", "text/event-stream") ∈ (sseHandler method enc steps).1 ∧
    ("Cache-Control", "no-cache") ∈ (sseHandler method enc steps).1 ∧
    ("Connection", "keep-alive") ∈ (sseHandler method enc steps).1 ∧
    (method ≠ "GET" →
      statsHandler method src =
        { status := 405, body := Body.text ("Method not allowed" ++ "\n") }) := by
  refine ⟨rfl, ?_, ?_, ?_, ?_, ?_⟩
  · simp [sseHandler, sseHeaders]
  · simp [sseHandler, sseHeaders]
  · simp [sseHandler, sseHeaders]
  · simp [sseHandler, sseHeaders]
  · intro hm
    simp [statsHandler, hm]

/-- Witness for C10 at method POST. -/
theorem sseHandler_no_method_check_witness :
    sseHandler ("POST") (fun _ => "") [] =
      sseHandler ("GET") (fun _ => "") [] ∧
    statsHandler ("POST") srcProcMix =
      { status := 405, body := Body.text ("Method not allowed" ++ "\n") } :=
  ⟨(sseHandler_no_method_check ("POST") (fun _ => "") [] srcProcMix).1,
   (sseHandler_no_method_check ("POST") (fun _ => "") [] srcProcMix).2.2.2.2.2
     (by decide)⟩
